import Mathlib

/-!
Shallow embedding of the DXWY D350T1013V1 / ST7701 DSI panel driver
(`panel-dxwy-d350t1013v1.c`).

The driver is straight-line callback glue over three collaborators: a
power-supply enabler (`regulator_bulk_enable` / `regulator_bulk_disable`),
a reset-line driver (`gpiod_set_value`), and a DSI command channel
(`mipi_dsi_dcs_write_buffer` / `mipi_dsi_dcs_read`).  We model each
lifecycle callback as a function from an environment of collaborator
outcomes to the callback's integer return value paired with the ordered
trace of collaborator calls it issues.  `dev_info` logging is not a
collaborator call and produces no trace event.
-/

set_option maxRecDepth 8000

/-- One collaborator call, as observed on the wire / at the collaborator
interface. -/
inductive Event where
  /-- `regulator_bulk_enable(n, supplies)` -/
  | supplyEnable : Nat → Event
  /-- `regulator_bulk_disable(n, supplies)` -/
  | supplyDisable : Nat → Event
  /-- `gpiod_set_value(reset, v)` -/
  | resetSet : Nat → Event
  /-- `mipi_dsi_dcs_write_buffer(dsi, seq, len)`: the full buffer
  (address byte followed by payload bytes) -/
  | dcsWrite : List Nat → Event
  /-- `mipi_dsi_dcs_read(dsi, reg, buf, len)` -/
  | dcsRead : Nat → Nat → Event
  /-- `msleep(ms)` -/
  | sleep : Nat → Event
deriving DecidableEq, Repr

/-- One straight-line statement of `st7701_init_sequence`: an `ST7701_DSI`
macro expansion, an `msleep`, or a `mipi_dsi_dcs_read`.  Both the write and
the read discard their return value in the source (the `ST7701_DSI` macro
body does not inspect `st7701_dsi_write`'s result, and the `dcs_read`
results are only logged), so a step carries no outcome dependence. -/
inductive Step where
  | dsi : List Nat → Step
  | sleepStep : Nat → Step
  | readStep : Nat → Nat → Step
deriving DecidableEq, Repr

def runStep : Step → Event
  | .dsi seq => .dcsWrite seq
  | .sleepStep ms => .sleep ms
  | .readStep reg len => .dcsRead reg len

def runSteps (steps : List Step) : List Event := steps.map runStep

/-- `st7701_init_sequence`, the uncommented statements only, transcribed in
source order (the "new sequence" of the file; the large commented-out
blocks are dead code and are not part of the program).  Every entry is
byte-for-byte the buffer built by the corresponding `ST7701_DSI` line. -/
def st7701_init_sequence : List Step := [
  -- Software reset.
  .dsi [0x01],
  .sleepStep 500,
  -- Sleep out.
  .dsi [0x11],
  .sleepStep 500,
  -- Read Display Id (result only logged).
  .readStep 0x04 3,
  .dsi [0xFF, 0x77, 0x01, 0x00, 0x00, 0x13],
  .dsi [0xEF, 0x08],
  .dsi [0xFF, 0x77, 0x01, 0x00, 0x00, 0x10],
  .dsi [0xC0, 0x63, 0x00],
  .dsi [0xC1, 0x10, 0x02],
  .dsi [0xC2, 0x31, 0x02],
  .dsi [0xCC, 0x10],
  .dsi [0xB0, 0xC0, 0x0C, 0x92, 0x0C, 0x10, 0x05, 0x02, 0x0D, 0x07, 0x21,
        0x04, 0x53, 0x11, 0x6A, 0x32, 0x1F],
  .dsi [0xB1, 0xC0, 0x87, 0xCF, 0x0C, 0x10, 0x06, 0x00, 0x03, 0x08, 0x1D,
        0x06, 0x54, 0x12, 0xE6, 0xEC, 0x0F],
  .dsi [0xFF, 0x77, 0x01, 0x00, 0x00, 0x11],
  .dsi [0xB0, 0x5D],
  .dsi [0xB1, 0x62],
  .dsi [0xB2, 0x82],
  .dsi [0xB3, 0x80],
  .dsi [0xB5, 0x42],
  .dsi [0xB7, 0x85],
  .dsi [0xB8, 0x20],
  .dsi [0xC0, 0x09],
  .dsi [0xC1, 0x78],
  .dsi [0xC2, 0x78],
  .dsi [0xD0, 0x88],
  .dsi [0xEE, 0x42],
  .sleepStep 500,
  .dsi [0xE0, 0x00, 0x00, 0x02],
  .dsi [0xE1, 0x04, 0xA0, 0x06, 0xA0, 0x05, 0xA0, 0x07, 0xA0, 0x00, 0x44,
        0x44],
  .dsi [0xE2, 0x00, 0x00, 0x33, 0x33, 0x01, 0xA0, 0x00, 0x00, 0x01, 0xA0,
        0x00, 0x00],
  .dsi [0xE3, 0x00, 0x00, 0x33, 0x33],
  .dsi [0xE4, 0x44, 0x44],
  .dsi [0xE5, 0x0C, 0x30, 0xA0, 0xA0, 0x0E, 0x32, 0xA0, 0xA0, 0x08, 0x2C,
        0xA0, 0xA0, 0x0A, 0x2E, 0xA0, 0xA0],
  .dsi [0xE6, 0x00, 0x00, 0x33, 0x33],
  .dsi [0xE7, 0x44, 0x44],
  .dsi [0xE8, 0x0D, 0x31, 0xA0, 0xA0, 0x0F, 0x33, 0xA0, 0xA0, 0x09, 0x2D,
        0xA0, 0xA0, 0x0B, 0x2F, 0xA0, 0xA0],
  .dsi [0xEB, 0x00, 0x01, 0xE4, 0xE4, 0x44, 0x88, 0x00],
  .dsi [0xED, 0xFF, 0xF5, 0x47, 0x6F, 0x0B, 0xA1, 0xA2, 0xBF, 0xFB, 0x2A,
        0x1A, 0xB0, 0xF6, 0x74, 0x5F, 0xFF],
  .dsi [0xEF, 0x08, 0x08, 0x08, 0x40, 0x3F, 0x64],
  .dsi [0xFF, 0x77, 0x01, 0x00, 0x00, 0x13],
  .dsi [0xE8, 0x00, 0x0E],
  .dsi [0xFF, 0x77, 0x01, 0x00, 0x00, 0x00],
  .dsi [0x11],
  .sleepStep 500,
  .dsi [0xFF, 0x77, 0x01, 0x00, 0x00, 0x13],
  .dsi [0xE8, 0x00, 0x0C],
  .sleepStep 500,
  .dsi [0xE8, 0x00, 0x00],
  .dsi [0xFF, 0x77, 0x01, 0x00, 0x00, 0x00],
  .dsi [0x3A, 0x50],
  .dsi [0x29],
  .sleepStep 500,
  -- Display on.
  .dsi [0x29],
  .sleepStep 500,
  -- Read Display Id.
  .readStep 0x04 3,
  -- Read display power mode.
  .readStep 0x0a 1,
  -- Read display pixel format.
  .readStep 0x0c 1,
  -- Read display image mode.
  .readStep 0x0d 1,
  -- Read display signal mode.
  .readStep 0x0e 1]

/-- Environment of collaborator outcomes for one lifecycle call:
the return value of `regulator_bulk_enable`, and the return values of the
k-th DCS write and the k-th DCS read issued during the call.
`gpiod_set_value` and `msleep` return `void` and have no outcome. -/
structure Env where
  supplyEnableRet : Int
  writeRet : Nat → Int
  readRet : Nat → Int

/-- MIPI-DSI pixel formats (`enum mipi_dsi_pixel_format`). -/
inductive PixelFormat where
  | rgb888
  | rgb666
  | rgb666Packed
  | rgb565
deriving DecidableEq, Repr

/-- The named mode-flag constants OR-ed into `dsi->mode_flags` by this
driver, modelled symbolically (each named C constant is one element; the C
`|` of distinct named constants is the list of their names). -/
inductive DsiModeFlag where
  | video                -- MIPI_DSI_MODE_VIDEO
  | videoBurst           -- MIPI_DSI_MODE_VIDEO_BURST
  | videoSyncPulse       -- MIPI_DSI_MODE_VIDEO_SYNC_PULSE
  | clockNonContinuous   -- MIPI_DSI_CLOCK_NON_CONTINUOUS
  | msgUseLpm            -- MIPI_DSI_MSG_USE_LPM
deriving DecidableEq, Repr

/-- `struct drm_display_mode`, the fields this driver reads or sets. -/
structure DrmDisplayMode where
  clock : Nat
  hdisplay : Nat
  hsync_start : Nat
  hsync_end : Nat
  htotal : Nat
  vdisplay : Nat
  vsync_start : Nat
  vsync_end : Nat
  vtotal : Nat
  width_mm : Nat
  height_mm : Nat
deriving DecidableEq, Repr

/-- `struct st7701_panel_desc`. -/
structure St7701PanelDesc where
  mode : DrmDisplayMode
  lanes : Nat
  flags : List DsiModeFlag
  format : PixelFormat
  supply_names : List String
  num_supplies : Nat
  panel_sleep_delay : Nat

/-- `ts8550b_mode`, bit-exact from the source (the commented-out clock
values 27500 and 25000 are dead code; the live value is 1000). -/
def ts8550b_mode : DrmDisplayMode where
  clock := 1000
  hdisplay := 480
  hsync_start := 480 + 18
  hsync_end := 480 + 18 + 16
  htotal := 480 + 18 + 16 + 2
  vdisplay := 800
  vsync_start := 800 + 16
  vsync_end := 800 + 16 + 14
  vtotal := 800 + 16 + 14 + 2
  width_mm := 45
  height_mm := 76

def ts8550b_supply_names : List String := ["VCC", "IOVCC"]

/-- `ts8550b_desc` (`num_supplies` is `ARRAY_SIZE(ts8550b_supply_names)`). -/
def ts8550b_desc : St7701PanelDesc where
  mode := ts8550b_mode
  lanes := 2
  flags := [.video]
  format := .rgb888
  supply_names := ts8550b_supply_names
  num_supplies := ts8550b_supply_names.length
  panel_sleep_delay := 80

/-- `st7701_prepare`.  `numSupplies` is `st7701->desc->num_supplies`.
Returns the callback's integer result and the trace of collaborator calls.
`regulator_bulk_enable`'s result is checked (`if (ret < 0) return ret`);
every DCS write and read inside `st7701_init_sequence` discards its
result, so the remainder of the trace does not consult `env`. -/
def st7701_prepare (numSupplies : Nat) (env : Env) : Int × List Event :=
  if env.supplyEnableRet < 0 then
    (env.supplyEnableRet, [Event.supplyEnable numSupplies])
  else
    (0, [Event.supplyEnable numSupplies, Event.sleep 500,
         Event.resetSet 0, Event.sleep 500,
         Event.resetSet 1, Event.sleep 500,
         Event.sleep 500]
        ++ runSteps st7701_init_sequence
        ++ [Event.sleep 500])

/-- `st7701_enable`: only `dev_info` logging remains (every hardware
access in its body is commented out); returns 0. -/
def st7701_enable (_env : Env) : Int × List Event :=
  (0, [])

/-- MIPI_DCS_SET_DISPLAY_OFF, the DCS command byte sent by
`mipi_dsi_dcs_set_display_off`. -/
def MIPI_DCS_SET_DISPLAY_OFF : Nat := 0x28

/-- `st7701_disable`: calls `mipi_dsi_dcs_set_display_off` with its result
discarded, then returns 0. -/
def st7701_disable (_env : Env) : Int × List Event :=
  (0, [Event.dcsWrite [MIPI_DCS_SET_DISPLAY_OFF]])

/-- `st7701_unprepare`.  `sleepDelay` is `st7701->sleep_delay`.  The
sleep-in (`MIPI_DCS_ENTER_SLEEP_MODE`) write is commented out in the
source, so no DCS write occurs; the reset line is driven low and the
supplies are bulk-disabled unconditionally, and the callback returns 0
whatever the environment holds. -/
def st7701_unprepare (numSupplies sleepDelay : Nat) (_env : Env) :
    Int × List Event :=
  (0, [Event.sleep sleepDelay,
       Event.resetSet 0,
       Event.sleep sleepDelay,
       Event.supplyDisable numSupplies])

/-- The connector state `st7701_get_modes` touches: the probed-mode list
(`drm_mode_probed_add` appends) and `connector->display_info`'s physical
size fields. -/
structure Connector where
  probedModes : List DrmDisplayMode
  width_mm : Nat
  height_mm : Nat
deriving DecidableEq, Repr

/-- Linux ENOMEM; `st7701_get_modes` returns `-ENOMEM` when
`drm_mode_duplicate` fails. -/
def ENOMEM : Int := 12

/-- `st7701_get_modes`.  `allocOk` is whether `drm_mode_duplicate`
(the host's mode allocation) succeeds; on success the duplicated
descriptor mode is appended to the connector's probed list and the
connector's physical size is set from the mode, and the callback returns
the mode count 1.  No collaborator (hardware) call occurs on either path,
so the trace component is always empty. -/
def st7701_get_modes (desc : St7701PanelDesc) (allocOk : Bool)
    (conn : Connector) : Int × Connector × List Event :=
  if allocOk then
    (1,
     { probedModes := conn.probedModes ++ [desc.mode]
       width_mm := desc.mode.width_mm
       height_mm := desc.mode.height_mm },
     [])
  else
    (-ENOMEM, conn, [])

/-- The channel-configuration fields of `struct mipi_dsi_device` that
`st7701_dsi_probe` assigns. -/
structure DsiDevice where
  lanes : Nat
  format : PixelFormat
  mode_flags : List DsiModeFlag
deriving DecidableEq, Repr

/-- Host/collaborator outcomes consulted by `st7701_dsi_probe`. -/
structure ProbeEnv where
  /-- `devm_kzalloc` of the instance record succeeds -/
  instAllocOk : Bool
  /-- `devm_kcalloc` of the supplies array succeeds -/
  suppliesAllocOk : Bool
  /-- return of `devm_regulator_bulk_get` -/
  regulatorGetRet : Int
  /-- return of `devm_gpiod_get` for the reset line: `IS_ERR` iff < 0,
  in which case `PTR_ERR` is this value -/
  resetGetRet : Int
  /-- return of `drm_panel_of_backlight` -/
  backlightRet : Int
  /-- return of `mipi_dsi_attach` -/
  attachRet : Int

/-- `st7701_dsi_probe`, tracking the channel configuration it writes into
`dsi`.  It first copies `desc->flags`, `desc->format`, `desc->lanes` into
the device, and — after the regulator / reset-GPIO / backlight steps, each
with its early error return — overwrites all three with hard-coded
constants just before `mipi_dsi_attach`. -/
def st7701_dsi_probe (desc : St7701PanelDesc) (env : ProbeEnv)
    (dsi : DsiDevice) : Int × DsiDevice :=
  if !env.instAllocOk then
    (-ENOMEM, dsi)
  else
    let dsi := { dsi with
      mode_flags := desc.flags
      format := desc.format
      lanes := desc.lanes }
    if !env.suppliesAllocOk then
      (-ENOMEM, dsi)
    else if env.regulatorGetRet < 0 then
      (env.regulatorGetRet, dsi)
    else if env.resetGetRet < 0 then
      (env.resetGetRet, dsi)
    else if env.backlightRet ≠ 0 then
      (env.backlightRet, dsi)
    else
      let dsi := { dsi with
        mode_flags := [DsiModeFlag.video, DsiModeFlag.videoSyncPulse,
                       DsiModeFlag.clockNonContinuous, DsiModeFlag.msgUseLpm]
        format := PixelFormat.rgb888
        lanes := 2 }
      (env.attachRet, dsi)

/-- `st7701->sleep_delay` as computed in probe:
`120 + desc->panel_sleep_delay`. -/
def st7701_sleep_delay (desc : St7701PanelDesc) : Nat :=
  120 + desc.panel_sleep_delay

/- Trace observations. -/

def isWriteEvent : Event → Bool
  | .dcsWrite _ => true
  | _ => false

def isReadEvent : Event → Bool
  | .dcsRead _ _ => true
  | _ => false

def isResetEvent : Event → Bool
  | .resetSet _ => true
  | _ => false

def isSupplyEvent : Event → Bool
  | .supplyEnable _ => true
  | .supplyDisable _ => true
  | _ => false

def countWrites (t : List Event) : Nat := (t.filter isWriteEvent).length

def countResets (t : List Event) : Nat := (t.filter isResetEvent).length

/-! ## Claim theorems -/

/-- C2: if enabling the power supplies fails at the start of Prepare,
Prepare returns the supply error (PowerError) and performs zero reset-line
transitions and zero command writes. -/
theorem prepare_power_failure (n : Nat) (env : Env)
    (h : env.supplyEnableRet < 0) :
    st7701_prepare n env = (env.supplyEnableRet, [Event.supplyEnable n]) ∧
    (st7701_prepare n env).1 < 0 ∧
    countResets (st7701_prepare n env).2 = 0 ∧
    countWrites (st7701_prepare n env).2 = 0 := by
  unfold st7701_prepare
  rw [if_pos h]
  exact ⟨rfl, h, rfl, rfl⟩

/-- Witness for C2 at a concrete failing environment. -/
theorem prepare_power_failure_witness :
    ((⟨-5, fun _ => 0, fun _ => 0⟩ : Env).supplyEnableRet < 0) ∧
    (st7701_prepare 2 (⟨-5, fun _ => 0, fun _ => 0⟩ : Env) =
      (-5, [Event.supplyEnable 2]) ∧
     (st7701_prepare 2 (⟨-5, fun _ => 0, fun _ => 0⟩ : Env)).1 < 0 ∧
     countResets (st7701_prepare 2 (⟨-5, fun _ => 0, fun _ => 0⟩ : Env)).2 = 0 ∧
     countWrites (st7701_prepare 2 (⟨-5, fun _ => 0, fun _ => 0⟩ : Env)).2 = 0) :=
  ⟨by decide, prepare_power_failure 2 _ (by decide)⟩

/-- C3: in every successful run of Prepare, supply-enable is the very
first collaborator call (hence before any reset-line transition); the
reset transitions are exactly low then high, each followed by a hold
(`msleep`); and no command write occurs before the reset line has been
driven high. -/
theorem prepare_ordering (env : Env) (h : 0 ≤ env.supplyEnableRet) :
    (st7701_prepare ts8550b_desc.num_supplies env).1 = 0 ∧
    ((st7701_prepare ts8550b_desc.num_supplies env).2.head? =
      some (Event.supplyEnable ts8550b_desc.num_supplies)) ∧
    ((st7701_prepare ts8550b_desc.num_supplies env).2.filter isResetEvent =
      [Event.resetSet 0, Event.resetSet 1]) ∧
    List.IsInfix
      [Event.resetSet 0, Event.sleep 500, Event.resetSet 1, Event.sleep 500]
      (st7701_prepare ts8550b_desc.num_supplies env).2 ∧
    countWrites ((st7701_prepare ts8550b_desc.num_supplies env).2.takeWhile
      (fun e => !(e == Event.resetSet 1))) = 0 := by
  unfold st7701_prepare
  rw [if_neg (not_lt.mpr h)]
  decide

/-- Witness for C3 at a concrete succeeding environment. -/
theorem prepare_ordering_witness :
    ((0 : Int) ≤ (⟨0, fun _ => 0, fun _ => 0⟩ : Env).supplyEnableRet) ∧
    ((st7701_prepare ts8550b_desc.num_supplies
        (⟨0, fun _ => 0, fun _ => 0⟩ : Env)).1 = 0 ∧
     ((st7701_prepare ts8550b_desc.num_supplies
        (⟨0, fun _ => 0, fun _ => 0⟩ : Env)).2.head? =
       some (Event.supplyEnable ts8550b_desc.num_supplies)) ∧
     ((st7701_prepare ts8550b_desc.num_supplies
        (⟨0, fun _ => 0, fun _ => 0⟩ : Env)).2.filter isResetEvent =
       [Event.resetSet 0, Event.resetSet 1]) ∧
     List.IsInfix
       [Event.resetSet 0, Event.sleep 500, Event.resetSet 1, Event.sleep 500]
       (st7701_prepare ts8550b_desc.num_supplies
         (⟨0, fun _ => 0, fun _ => 0⟩ : Env)).2 ∧
     countWrites ((st7701_prepare ts8550b_desc.num_supplies
        (⟨0, fun _ => 0, fun _ => 0⟩ : Env)).2.takeWhile
       (fun e => !(e == Event.resetSet 1))) = 0) :=
  ⟨by decide, prepare_ordering _ (by decide)⟩

/-- C1 counterexample: in an environment where every command-channel write
(including the one for the first init-table entry) returns the error -22,
Prepare still issues all 47 command writes and returns 0 (success), not an
error: the `ST7701_DSI` macro discards `st7701_dsi_write`'s result. -/
theorem prepare_write_error_ignored_cex :
    ((⟨0, fun _ => -22, fun _ => 0⟩ : Env).writeRet 0 < 0) ∧
    (st7701_prepare 2 (⟨0, fun _ => -22, fun _ => 0⟩ : Env)).1 = 0 ∧
    countWrites (st7701_prepare 2 (⟨0, fun _ => -22, fun _ => 0⟩ : Env)).2
      = 47 := by
  decide

/-- C1 amended: Prepare never consults the command-channel write outcomes.
When supply enable succeeds it issues the full init table (all 47 writes)
and returns success, whatever each write returned; its whole behaviour is
unchanged under any reassignment of the write outcomes. -/
theorem prepare_writes_unchecked (n : Nat) (env : Env)
    (h : 0 ≤ env.supplyEnableRet) :
    (st7701_prepare n env).1 = 0 ∧
    countWrites (st7701_prepare n env).2 = 47 ∧
    (∀ w : Nat → Int,
      st7701_prepare n { env with writeRet := w } = st7701_prepare n env) := by
  unfold st7701_prepare
  rw [if_neg (not_lt.mpr h)]
  exact ⟨rfl, rfl, fun w => by rw [if_neg (not_lt.mpr h)]⟩

/-- Witness for the amended C1 at a concrete environment whose writes all
fail. -/
theorem prepare_writes_unchecked_witness :
    ((0 : Int) ≤ (⟨0, fun _ => -22, fun _ => 0⟩ : Env).supplyEnableRet) ∧
    ((st7701_prepare 2 (⟨0, fun _ => -22, fun _ => 0⟩ : Env)).1 = 0 ∧
     countWrites (st7701_prepare 2 (⟨0, fun _ => -22, fun _ => 0⟩ : Env)).2
       = 47 ∧
     (∀ w : Nat → Int,
       st7701_prepare 2 { (⟨0, fun _ => -22, fun _ => 0⟩ : Env) with
         writeRet := w }
         = st7701_prepare 2 (⟨0, fun _ => -22, fun _ => 0⟩ : Env))) :=
  ⟨by decide, prepare_writes_unchecked 2 _ (by decide)⟩

/-- C6 counterexample: in an environment where the device-identification
read (DCS register 0x04) returns the error -5, Prepare still returns 0
(success, not LinkError) and issues 45 further command writes after that
read: the result of `mipi_dsi_dcs_read` is only logged, never checked. -/
theorem prepare_read_error_ignored_cex :
    ((⟨0, fun _ => 0, fun _ => -5⟩ : Env).readRet 0 < 0) ∧
    (st7701_prepare 2 (⟨0, fun _ => 0, fun _ => -5⟩ : Env)).1 = 0 ∧
    countWrites
      ((st7701_prepare 2 (⟨0, fun _ => 0, fun _ => -5⟩ : Env)).2.dropWhile
        (fun e => !(isReadEvent e))) = 45 := by
  decide

/-- C6 amended: Prepare never consults the outcome of any DCS read (the
device-identification link-health read included).  When supply enable
succeeds it returns success, and its whole behaviour is unchanged under
any reassignment of the read outcomes. -/
theorem prepare_reads_unchecked (n : Nat) (env : Env)
    (h : 0 ≤ env.supplyEnableRet) :
    (st7701_prepare n env).1 = 0 ∧
    (∀ r : Nat → Int,
      st7701_prepare n { env with readRet := r } = st7701_prepare n env) := by
  unfold st7701_prepare
  rw [if_neg (not_lt.mpr h)]
  exact ⟨rfl, fun r => by rw [if_neg (not_lt.mpr h)]⟩

/-- Witness for the amended C6 at a concrete environment whose reads all
fail. -/
theorem prepare_reads_unchecked_witness :
    ((0 : Int) ≤ (⟨0, fun _ => 0, fun _ => -5⟩ : Env).supplyEnableRet) ∧
    ((st7701_prepare 2 (⟨0, fun _ => 0, fun _ => -5⟩ : Env)).1 = 0 ∧
     (∀ r : Nat → Int,
       st7701_prepare 2 { (⟨0, fun _ => 0, fun _ => -5⟩ : Env) with
         readRet := r }
         = st7701_prepare 2 (⟨0, fun _ => 0, fun _ => -5⟩ : Env))) :=
  ⟨by decide, prepare_reads_unchecked 2 _ (by decide)⟩

/-- C4: GetModes touches no collaborator on any path; when the host's mode
allocation succeeds it returns mode count 1, appends exactly the
descriptor's mode (hence its dimensions and millimeter fields) to the
connector's probed list, and copies the mode's physical size into the
connector; when the allocation fails it returns -ENOMEM with the connector
unchanged. -/
theorem get_modes_spec (desc : St7701PanelDesc) (conn : Connector) :
    (∀ allocOk, (st7701_get_modes desc allocOk conn).2.2 = []) ∧
    (st7701_get_modes desc true conn).1 = 1 ∧
    ((st7701_get_modes desc true conn).2.1.probedModes =
      conn.probedModes ++ [desc.mode]) ∧
    ((st7701_get_modes desc true conn).2.1.width_mm = desc.mode.width_mm) ∧
    ((st7701_get_modes desc true conn).2.1.height_mm = desc.mode.height_mm) ∧
    (st7701_get_modes desc false conn = (-ENOMEM, conn, [])) := by
  refine ⟨fun allocOk => ?_, rfl, rfl, rfl, rfl, rfl⟩
  cases allocOk <;> rfl

/-- C5: Unprepare's behaviour is independent of every collaborator outcome
(in particular of any command-write outcome: the sleep-in write is absent
from the live code), it always drives the reset line low and then disables
all supplies, and it always returns success. -/
theorem unprepare_always_powers_down (n sd : Nat) (env env' : Env) :
    st7701_unprepare n sd env = st7701_unprepare n sd env' ∧
    (st7701_unprepare n sd env).1 = 0 ∧
    (st7701_unprepare n sd env).2 =
      [Event.sleep sd, Event.resetSet 0, Event.sleep sd,
       Event.supplyDisable n] ∧
    countWrites (st7701_unprepare n sd env).2 = 0 :=
  ⟨rfl, rfl, rfl, rfl⟩

/-- C7 counterexample: in an environment where the display-off write
returns the error -5, Disable still returns 0 (success): the result of
`mipi_dsi_dcs_set_display_off` is discarded. -/
theorem disable_write_error_ignored_cex :
    ((⟨0, fun _ => -5, fun _ => 0⟩ : Env).writeRet 0 = -5) ∧
    (st7701_disable (⟨0, fun _ => -5, fun _ => 0⟩ : Env)).1 = 0 ∧
    (st7701_disable (⟨0, fun _ => -5, fun _ => 0⟩ : Env)).1 ≠ -5 := by
  decide

/-- C7 amended: Disable issues the display-off command with its result
discarded and always returns success, whatever the write outcome. -/
theorem disable_returns_success (env : Env) :
    st7701_disable env = (0, [Event.dcsWrite [MIPI_DCS_SET_DISPLAY_OFF]]) :=
  rfl

/-- C8: Disable issues the display-off command only: its trace contains no
supply-enable/disable call and no reset-line transition, and its command
writes are exactly the single display-off buffer. -/
theorem disable_frame (env : Env) :
    (st7701_disable env).2.filter isSupplyEvent = [] ∧
    (st7701_disable env).2.filter isResetEvent = [] ∧
    (st7701_disable env).2.filter isWriteEvent =
      [Event.dcsWrite [MIPI_DCS_SET_DISPLAY_OFF]] :=
  ⟨rfl, rfl, rfl⟩

/-- C9: Enable touches no collaborator (empty trace) and returns success
in every environment, while the display-on command 0x29 is issued as part
of the init sequence that Prepare runs. -/
theorem enable_noop (env : Env) :
    st7701_enable env = (0, []) ∧
    Event.dcsWrite [0x29] ∈ runSteps st7701_init_sequence :=
  ⟨rfl, by decide⟩

/-- C10: whenever probe succeeds (returns 0), the channel configuration it
leaves on the DSI device is the hard-coded constants 2 lanes, RGB888, and
the flags VIDEO | VIDEO_SYNC_PULSE | CLOCK_NON_CONTINUOUS | MSG_USE_LPM,
for every descriptor and every initial device state — so the descriptor's
own channel configuration, written earlier in probe, is overwritten. -/
theorem probe_overwrites_channel_config (desc : St7701PanelDesc)
    (env : ProbeEnv) (dsi : DsiDevice)
    (h : (st7701_dsi_probe desc env dsi).1 = 0) :
    (st7701_dsi_probe desc env dsi).2.lanes = 2 ∧
    (st7701_dsi_probe desc env dsi).2.format = PixelFormat.rgb888 ∧
    (st7701_dsi_probe desc env dsi).2.mode_flags =
      [DsiModeFlag.video, DsiModeFlag.videoSyncPulse,
       DsiModeFlag.clockNonContinuous, DsiModeFlag.msgUseLpm] := by
  unfold st7701_dsi_probe at h ⊢
  split_ifs at h ⊢ with h1 h2 h3 h4 h5
  · simp [ENOMEM] at h
  · simp [ENOMEM] at h
  · simp at h; omega
  · simp at h; omega
  · simp at h; exact absurd h h5
  · exact ⟨rfl, rfl, rfl⟩

/-- Witness for C10: a concrete all-success probe over a descriptor whose
own channel configuration (4 lanes, RGB565, burst flag) differs from the
constants; the final device nevertheless holds the constants. -/
theorem probe_overwrites_channel_config_witness :
    ((st7701_dsi_probe
        ⟨ts8550b_mode, 4, [DsiModeFlag.videoBurst], PixelFormat.rgb565,
         [], 0, 0⟩
        ⟨true, true, 0, 0, 0, 0⟩ ⟨0, PixelFormat.rgb565, []⟩).1 = 0) ∧
    ((st7701_dsi_probe
        ⟨ts8550b_mode, 4, [DsiModeFlag.videoBurst], PixelFormat.rgb565,
         [], 0, 0⟩
        ⟨true, true, 0, 0, 0, 0⟩ ⟨0, PixelFormat.rgb565, []⟩).2.lanes = 2 ∧
     (st7701_dsi_probe
        ⟨ts8550b_mode, 4, [DsiModeFlag.videoBurst], PixelFormat.rgb565,
         [], 0, 0⟩
        ⟨true, true, 0, 0, 0, 0⟩ ⟨0, PixelFormat.rgb565, []⟩).2.format
       = PixelFormat.rgb888 ∧
     (st7701_dsi_probe
        ⟨ts8550b_mode, 4, [DsiModeFlag.videoBurst], PixelFormat.rgb565,
         [], 0, 0⟩
        ⟨true, true, 0, 0, 0, 0⟩ ⟨0, PixelFormat.rgb565, []⟩).2.mode_flags =
       [DsiModeFlag.video, DsiModeFlag.videoSyncPulse,
        DsiModeFlag.clockNonContinuous, DsiModeFlag.msgUseLpm]) :=
  ⟨by decide, probe_overwrites_channel_config _ _ _ (by decide)⟩
